import Mathlib

/-!
Shallow embedding of `src/server/src/services/search.service.ts` (Immich
`SearchService`).  Each service method is modelled as a pure Lean function
over an explicit environment that supplies the results of repository /
machine-learning calls; the calls the method performs are recorded in an
explicit effect log.  JavaScript truthiness on optional strings and numbers
is modelled explicitly (`strTruthy`, `jsNumOr`, `jsOrStr`, `jsOrOpt`).
-/

namespace Immich

/-- Truthiness of a `string | null | undefined` TS value: present and non-empty. -/
def strTruthy : Option String → Bool
  | none => false
  | some s => s != ""

/-- JS `a || b` where `a : string | undefined` and the result must be a string. -/
def jsOrStr (a : Option String) (b : String) : String :=
  match a with
  | none => b
  | some s => if s != "" then s else b

/-- JS `a || b` on two optional strings (used for `dto.q || dto.query`). -/
def jsOrOpt (a b : Option String) : Option String :=
  if strTruthy a then a else b

/-- JS `n || d` where `n : number | undefined`: `d` when absent or zero. -/
def jsNumOr (o : Option Nat) (d : Nat) : Nat :=
  match o with
  | none => d
  | some n => if n = 0 then d else n

/-- JS `array.filter(Boolean)` on a `(string | null)[]`: keep the truthy strings. -/
def jsFilterBoolean (l : List (Option String)) : List String :=
  l.filterMap fun o =>
    match o with
    | none => none
    | some s => if s != "" then some s else none

/-- Insertion-order deduplication, as a JS `new Set(...)` spread back to an array. -/
def jsDedup (l : List String) : List String :=
  l.foldl (fun acc a => if a ∈ acc then acc else acc ++ [a]) []

/-- Job status enum from `src/interfaces/job.interface.ts` (values used here). -/
inductive JobStatus where
  | success
  | failed
  | skipped
deriving DecidableEq, Repr

/-- Job names queued by this service. -/
inductive JobName where
  | duplicateDetection
deriving DecidableEq, Repr

/-- Search strategy enum from `src/interfaces/search.interface.ts`. -/
inductive SearchStrategy where
  | smart
  | text
deriving DecidableEq, Repr

/-- The feature flags this service checks. -/
inductive Feature where
  | search
  | smartSearch
deriving DecidableEq, Repr

/-- Errors thrown by the service methods modelled here: `requireFeature`
throwing for a disabled flag, and the generic missing-query throw. -/
inductive ServiceError where
  | featureDisabled (flag : Feature)
  | missingQuery
deriving DecidableEq, Repr

/-- The fields of `AssetEntity` that the modelled methods read. -/
structure AssetEntity where
  id : String
  ownerId : String
  isVisible : Bool
  duplicateId : Option String
  resizePath : Option String
deriving DecidableEq, Repr

/-- One row of `searchRepository.searchDuplicates` (asset id plus its
possibly-null duplicate group id). -/
structure AssetDuplicateResult where
  assetId : String
  duplicateId : Option String
deriving DecidableEq, Repr

/-- The fields of `PartnerEntity` read by `getUserIdsToSearch`; `sharedBy`
is a loaded relation in TS and is modelled by its truthiness. -/
structure PartnerEntity where
  sharedById : String
  sharedBy : Bool
  inTimeline : Bool
deriving DecidableEq, Repr

/-- Calls performed by `handleSearchDuplicates`, in order. -/
inductive DupCall where
  | searchDuplicatesCall (assetId : String) (maxDistance : Nat) (userIds : List String)
  | upsertDuplicate (duplicateId : String) (assetIds : List String) (duplicateIds : List String)
  | upsertJobStatus (assetId : String)
deriving DecidableEq, Repr

/-- Environment for one run of `handleSearchDuplicates`: the values the
repositories and config return.  `duplicateThreshold` carries the numeric
config value `machineLearning.clip.duplicateThreshold` as an uninterpreted
number. -/
structure DupSearchEnv where
  getById : Option AssetEntity
  searchDuplicates : List AssetDuplicateResult
  randomUUID : String
  duplicateThreshold : Nat
deriving DecidableEq, Repr

/-- Result of `handleSearchDuplicates`: the returned job status and the
repository calls made. -/
structure DupOutcome where
  status : JobStatus
  calls : List DupCall
deriving DecidableEq, Repr

/-- The duplicate-group upserts among the recorded calls. -/
def DupOutcome.dupUpserts (o : DupOutcome) : List DupCall :=
  o.calls.filter fun c =>
    match c with
    | .upsertDuplicate .. => true
    | _ => false

/-- `SearchService.handleSearchDuplicates` (search.service.ts:185-237). -/
def handleSearchDuplicates (env : DupSearchEnv) : DupOutcome :=
  match env.getById with
  | none => ⟨.failed, []⟩
  | some asset =>
    if !asset.isVisible then
      ⟨.skipped, [.upsertJobStatus asset.id]⟩
    else if strTruthy asset.duplicateId then
      ⟨.skipped, []⟩
    else if !(strTruthy asset.resizePath) then
      ⟨.failed, []⟩
    else
      let duplicateAssets := env.searchDuplicates
      let searchCall := DupCall.searchDuplicatesCall asset.id env.duplicateThreshold [asset.ownerId]
      if duplicateAssets.length > 0 then
        let duplicateIds := jsFilterBoolean (duplicateAssets.map (·.duplicateId))
        let duplicateId := jsOrStr duplicateIds.head? env.randomUUID
        let duplicateAssetIds := duplicateAssets.map (·.assetId) ++ [asset.id]
        ⟨.success,
          [searchCall, .upsertDuplicate duplicateId duplicateAssetIds duplicateIds,
            .upsertJobStatus asset.id]⟩
      else
        ⟨.success, [searchCall, .upsertJobStatus asset.id]⟩

/-- A job queued by `handleQueueSearchDuplicates`. -/
structure QueuedJob where
  name : JobName
  id : String
deriving DecidableEq, Repr

/-- Environment for `handleQueueSearchDuplicates`: config flags and the pages
produced by the asset pagination (for the `force` and non-`force` sources). -/
structure QueueDupEnv where
  machineLearningEnabled : Bool
  clipEnabled : Bool
  allPages : List (List AssetEntity)
  withoutPages : List (List AssetEntity)
deriving DecidableEq, Repr

/-- Result of `handleQueueSearchDuplicates`. -/
structure QueueDupOutcome where
  status : JobStatus
  queued : List QueuedJob
deriving DecidableEq, Repr

/-- `SearchService.handleQueueSearchDuplicates` (search.service.ts:164-183). -/
def handleQueueSearchDuplicates (force : Bool) (env : QueueDupEnv) : QueueDupOutcome :=
  if !env.machineLearningEnabled || !env.clipEnabled then
    ⟨.skipped, []⟩
  else
    let pages := if force then env.allPages else env.withoutPages
    ⟨.success, (pages.map fun assets => assets.map fun a => ⟨.duplicateDetection, a.id⟩).flatten⟩

/-- `SearchService.getUserIdsToSearch` (search.service.ts:293-301). -/
def getUserIdsToSearch (authUserId : String) (partners : List PartnerEntity) : List String :=
  authUserId :: (partners.filter fun p => p.sharedBy && p.inTimeline).map (·.sharedById)

/-- Asset order enum (`AssetOrder` from album.entity). -/
inductive AssetOrder where
  | asc
  | desc
deriving DecidableEq, Repr

/-- Checksum encoding chosen in `searchMetadata`. -/
inductive ChecksumEncoding where
  | base64
  | hex
deriving DecidableEq, Repr

/-- Opaque token standing for the float vector returned by
`machineLearning.encodeText`; its numeric content is never inspected. -/
structure Embedding where
  tag : Nat
deriving DecidableEq, Repr

/-- Result shape of the paginated search-repository queries. -/
structure SearchPageResult where
  hasNextPage : Bool
  items : List AssetEntity

/-- The fields of `MetadataSearchDto` that `searchMetadata` reads; the many
remaining filter fields are forwarded to the repository unchanged and are
not modelled. -/
structure MetadataSearchDto where
  page : Option Nat
  size : Option Nat
  order : Option AssetOrder
  checksum : Option String
  previewPath : Option String
  resizePath : Option String
  thumbnailPath : Option String
  webpPath : Option String
deriving DecidableEq, Repr

/-- The fields of `SmartSearchDto` that `searchSmart` reads. -/
structure SmartSearchDto where
  query : String
  page : Option Nat
  size : Option Nat
deriving DecidableEq, Repr

/-- The fields of the deprecated `SearchDto` that `search` reads. -/
structure SearchDto where
  q : Option String
  query : Option String
  smart : Bool
  clip : Bool
  page : Option Nat
  size : Option Nat
  withArchived : Bool
deriving DecidableEq, Repr

/-- Arguments of the `searchRepository.searchMetadata` call built by
`searchMetadata` (pagination plus the dto-derived options it computes). -/
structure MetadataRepoArgs where
  page : Nat
  size : Nat
  userIds : List String
  orderDirection : String
  checksumEncoding : Option ChecksumEncoding
  previewPath : Option String
  thumbnailPath : Option String
deriving DecidableEq, Repr

/-- Arguments of the `searchRepository.searchSmart` call.  `withArchived` is
set only by the deprecated `search` path (`!!dto.withArchived`); `searchSmart`
forwards its dto without touching it. -/
structure SmartRepoArgs where
  page : Nat
  size : Nat
  userIds : List String
  embedding : Embedding
  withArchived : Option Bool
deriving DecidableEq, Repr

/-- External calls recorded by the search methods, in execution order. -/
inductive SvcCall where
  | partnerGetAll (userId : String)
  | mlEncodeText (url : String) (text : String)
  | repoSearchSmart (args : SmartRepoArgs)
  | repoSearchMetadata (args : MetadataRepoArgs)
  | assetSearchMetadata (query : String) (userIds : List String) (numResults : Nat)
  | assetIdByCity (userId : String)
  | assetIdByTag (userId : String)
  | assetByIdsWithAllRelations (ids : List String)
deriving DecidableEq, Repr

/-- Raw result of `getAssetIdByCity` / `getAssetIdByTag`: a field name and
`(value, data)` items where `data` is an asset id. -/
structure ExploreItemRaw where
  fieldName : String
  items : List (String × String)

/-- Environment shared by the search methods: feature flags, config, and the
functions giving each downstream call its result. -/
structure SearchEnv where
  searchEnabled : Bool
  smartSearchEnabled : Bool
  mlUrl : String
  partners : List PartnerEntity
  encodeText : String → Embedding
  smartRepo : SmartRepoArgs → SearchPageResult
  metadataRepo : MetadataRepoArgs → SearchPageResult
  assetSearchMetadata : String → List String → Nat → List AssetEntity
  byCity : ExploreItemRaw
  byTag : ExploreItemRaw
  byIdsWithAllRelations : List String → List AssetEntity

/-- Albums section of `SearchResponseDto` (`α` is the mapped item type). -/
structure SearchAlbumsSection (α : Type) where
  total : Nat
  count : Nat
  items : List α
  facets : List String
deriving DecidableEq, Repr

/-- Assets section of `SearchResponseDto`. -/
structure SearchAssetsSection (α : Type) where
  total : Nat
  count : Nat
  items : List α
  facets : List String
  nextPage : Option String
deriving DecidableEq, Repr

/-- The response DTO shape produced by `mapResponse`. -/
structure SearchResponseDto (α : Type) where
  albums : SearchAlbumsSection α
  assets : SearchAssetsSection α
deriving DecidableEq, Repr

instance {ε β : Type} [DecidableEq ε] [DecidableEq β] : DecidableEq (Except ε β) := fun a b =>
  match a, b with
  | .ok x, .ok y =>
    if h : x = y then isTrue (congrArg Except.ok h) else isFalse fun hc => h (Except.ok.inj hc)
  | .error x, .error y =>
    if h : x = y then isTrue (congrArg Except.error h)
    else isFalse fun hc => h (Except.error.inj hc)
  | .ok _, .error _ => isFalse fun hc => Except.noConfusion hc
  | .error _, .ok _ => isFalse fun hc => Except.noConfusion hc

/-- Result of a search method: the value it returns or the error it throws,
plus the external calls it made. -/
structure SvcOutcome (β : Type) where
  result : Except ServiceError β
  calls : List SvcCall
deriving DecidableEq, Repr

/-- `SearchService.mapResponse` (search.service.ts:303-314); `mapAsset` is the
external DTO mapper, kept abstract. -/
def mapResponse {α : Type} (mapAsset : AssetEntity → α) (assets : List AssetEntity)
    (nextPage : Option String) : SearchResponseDto α :=
  ⟨⟨0, 0, [], []⟩, ⟨assets.length, assets.length, assets.map mapAsset, [], nextPage⟩⟩

/-- The repository arguments `searchMetadata` builds from its dto
(search.service.ts:93-112). -/
def metadataRepoArgs (authUserId : String) (env : SearchEnv)
    (dto : MetadataSearchDto) : MetadataRepoArgs :=
  let userIds := getUserIdsToSearch authUserId env.partners
  let checksumEncoding :=
    if strTruthy dto.checksum then
      dto.checksum.map fun c => if c.length = 28 then ChecksumEncoding.base64 else ChecksumEncoding.hex
    else none
  let previewPath := dto.previewPath <|> dto.resizePath
  let thumbnailPath := dto.thumbnailPath <|> dto.webpPath
  let page := dto.page.getD 1
  let size := jsNumOr dto.size 250
  let orderDirection :=
    match dto.order with
    | some .asc => "ASC"
    | some .desc => "DESC"
    | none => "DESC"
  ⟨page, size, userIds, orderDirection, checksumEncoding, previewPath, thumbnailPath⟩

/-- `SearchService.searchMetadata` (search.service.ts:89-115).  It performs no
feature-flag check and never throws. -/
def searchMetadata {α : Type} (mapAsset : AssetEntity → α) (env : SearchEnv)
    (authUserId : String) (dto : MetadataSearchDto) : SvcOutcome (SearchResponseDto α) :=
  let args := metadataRepoArgs authUserId env dto
  let r := env.metadataRepo args
  ⟨.ok (mapResponse mapAsset r.items
      (if r.hasNextPage then some (toString (args.page + 1)) else none)),
    [.partnerGetAll authUserId, .repoSearchMetadata args]⟩

/-- The repository arguments `searchSmart` builds from its dto
(search.service.ts:120-133). -/
def smartRepoArgs (authUserId : String) (env : SearchEnv)
    (dto : SmartSearchDto) : SmartRepoArgs :=
  let userIds := getUserIdsToSearch authUserId env.partners
  let embedding := env.encodeText dto.query
  let page := dto.page.getD 1
  let size := jsNumOr dto.size 100
  ⟨page, size, userIds, embedding, none⟩

/-- `SearchService.searchSmart` (search.service.ts:117-136). -/
def searchSmart {α : Type} (mapAsset : AssetEntity → α) (env : SearchEnv)
    (authUserId : String) (dto : SmartSearchDto) : SvcOutcome (SearchResponseDto α) :=
  if !env.smartSearchEnabled then
    ⟨.error (.featureDisabled .smartSearch), []⟩
  else
    let args := smartRepoArgs authUserId env dto
    let r := env.smartRepo args
    ⟨.ok (mapResponse mapAsset r.items
        (if r.hasNextPage then some (toString (args.page + 1)) else none)),
      [.partnerGetAll authUserId, .mlEncodeText env.mlUrl dto.query, .repoSearchSmart args]⟩

/-- Result of the deprecated `search`: outcome, calls, and the strategy
variable as it stood when the dispatch ran (none when an error was thrown
before the dispatch completed). -/
structure DeprecatedSearchOutcome (α : Type) where
  result : Except ServiceError (SearchResponseDto α)
  strategy : Option SearchStrategy
  calls : List SvcCall
deriving DecidableEq, Repr

/-- `SearchService.search` (search.service.ts:241-291), the deprecated
operation: flag check, `dto.q || dto.query` with a throw when falsy, then the
two-branch `TEXT`/`SMART` dispatch (the `TEXT` case falls through into an
empty `default`). -/
def search {α : Type} (mapAsset : AssetEntity → α) (env : SearchEnv)
    (authUserId : String) (dto : SearchDto) : DeprecatedSearchOutcome α :=
  if !env.searchEnabled then
    ⟨.error (.featureDisabled .search), none, []⟩
  else
    let query := jsOrOpt dto.q dto.query
    if !strTruthy query then
      ⟨.error .missingQuery, none, []⟩
    else if (dto.smart || dto.clip) && !env.smartSearchEnabled then
      ⟨.error (.featureDisabled .smartSearch), none, []⟩
    else
      let q := query.getD ""
      let userIds := getUserIdsToSearch authUserId env.partners
      let page := dto.page.getD 1
      if dto.smart || dto.clip then
        let embedding := env.encodeText q
        let args : SmartRepoArgs :=
          ⟨page, jsNumOr dto.size 100, userIds, embedding, some dto.withArchived⟩
        let r := env.smartRepo args
        let nextPage := if r.hasNextPage then some (toString (page + 1)) else none
        ⟨.ok (mapResponse mapAsset r.items nextPage), some .smart,
          [.partnerGetAll authUserId, .mlEncodeText env.mlUrl q, .repoSearchSmart args]⟩
      else
        let assets := env.assetSearchMetadata q userIds (jsNumOr dto.size 250)
        ⟨.ok (mapResponse mapAsset assets none), some .text,
          [.partnerGetAll authUserId, .assetSearchMetadata q userIds (jsNumOr dto.size 250)]⟩

/-- One entry of the `getExploreData` response: items pair each value with
the looked-up mapped asset (`none` models the `undefined` hidden by the
`as AssetResponseDto` cast). -/
structure ExploreResult (α : Type) where
  fieldName : String
  items : List (String × Option α)
deriving DecidableEq, Repr

/-- `SearchService.getExploreData` (search.service.ts:72-87). -/
def getExploreData {α : Type} (mapAsset : AssetEntity → α) (env : SearchEnv)
    (authUserId : String) : SvcOutcome (List (ExploreResult α)) :=
  if !env.searchEnabled then
    ⟨.error (.featureDisabled .search), []⟩
  else
    let results := [env.byCity, env.byTag]
    let assetIds := jsDedup ((results.map fun f => f.items.map Prod.snd).flatten)
    let assets := env.byIdsWithAllRelations assetIds
    let lookup := fun d => (assets.find? fun a => a.id == d).map mapAsset
    ⟨.ok (results.map fun f => ⟨f.fieldName, f.items.map fun it => (it.1, lookup it.2)⟩),
      [.assetIdByCity authUserId, .assetIdByTag authUserId,
        .assetByIdsWithAllRelations assetIds]⟩

/-! Concrete fixtures used to instantiate the theorems below on explicit
inputs. -/

/-- A visible asset with a preview image and no duplicate group. -/
def assetA : AssetEntity := ⟨"a1", "o1", true, none, some "p"⟩

/-- A duplicate-search environment that finds two duplicates, the second of
which already belongs to group `g1`. -/
def dupEnvA : DupSearchEnv := ⟨some assetA, [⟨"b1", none⟩, ⟨"b2", some "g1"⟩], "u1", 3⟩

/-- A queue environment with machine learning and CLIP enabled and one page
of one asset. -/
def queueEnvA : QueueDupEnv := ⟨true, true, [[assetA]], [[⟨"w1", "o1", true, none, none⟩]]⟩

/-- A partner sharing into the timeline. -/
def partnerA : PartnerEntity := ⟨"p1", true, true⟩

/-- A search environment with both feature flags enabled and concrete
repository results. -/
def searchEnvOn : SearchEnv :=
  ⟨true, true, "http://ml", [partnerA], fun _ => ⟨0⟩, fun _ => ⟨true, [assetA]⟩,
    fun _ => ⟨false, [assetA]⟩, fun _ _ _ => [assetA], ⟨"city", [("v", "a1")]⟩,
    ⟨"tag", []⟩, fun _ => [assetA]⟩

/-- The same environment with both feature flags disabled. -/
def searchEnvOff : SearchEnv :=
  ⟨false, false, "http://ml", [partnerA], fun _ => ⟨0⟩, fun _ => ⟨true, [assetA]⟩,
    fun _ => ⟨false, [assetA]⟩, fun _ _ _ => [assetA], ⟨"city", [("v", "a1")]⟩,
    ⟨"tag", []⟩, fun _ => [assetA]⟩

/-- A deprecated-search dto with a plain text query. -/
def dtoText : SearchDto := ⟨some "cat", none, false, false, none, none, false⟩

/-- A deprecated-search dto asking for smart search. -/
def dtoSmart : SearchDto := ⟨some "cat", none, true, false, none, none, false⟩

/-- A metadata-search dto with every modelled field absent. -/
def dtoMeta : MetadataSearchDto := ⟨none, none, none, none, none, none, none, none⟩

/-- A smart-search dto with defaults. -/
def dtoClip : SmartSearchDto := ⟨"cat", none, none⟩

/-- The abstract asset mapper instantiated as the identity on asset ids. -/
def mapAssetId : AssetEntity → String := AssetEntity.id

/-- A deprecated-search dto whose `q` is absent and whose `query` is empty. -/
def dtoNoQuery : SearchDto := ⟨none, some "", false, false, none, none, false⟩

/-- Whether a recorded call is the smart-search repository query. -/
def SvcCall.isSmartRepoCall : SvcCall → Bool
  | .repoSearchSmart _ => true
  | _ => false

/-- Whether a recorded call is the metadata query that the deprecated text
path makes on the asset repository. -/
def SvcCall.isTextRepoCall : SvcCall → Bool
  | .assetSearchMetadata .. => true
  | _ => false

/-- Formalisation of the C8 response-shape invariant: the albums section is
always empty, and the assets section counts its own items with no facets. -/
def wellFormedResponse {α : Type} (r : SearchResponseDto α) : Prop :=
  r.albums.total = 0 ∧ r.albums.count = 0 ∧ r.albums.items = [] ∧ r.albums.facets = []
    ∧ r.assets.total = r.assets.items.length ∧ r.assets.count = r.assets.items.length
    ∧ r.assets.facets = []

theorem jsFilterBoolean_eq_filterMap (l : List AssetDuplicateResult)
    (h : ∀ d ∈ l, d.duplicateId ≠ some "") :
    jsFilterBoolean (l.map (·.duplicateId)) = l.filterMap AssetDuplicateResult.duplicateId := by
  induction l with
  | nil => rfl
  | cons d rest ih =>
    have hd : d.duplicateId ≠ some "" := h d (by simp)
    have hrest := ih fun x hx => h x (by simp [hx])
    rcases hdup : d.duplicateId with _ | s
    · simpa [jsFilterBoolean, List.filterMap_cons, hdup] using hrest
    · have hs : s ≠ "" := by
        intro hs
        exact hd (by rw [hdup, hs])
      simpa [jsFilterBoolean, List.filterMap_cons, hdup, hs] using hrest

theorem mem_jsFilterBoolean_ne (l : List (Option String)) (s : String)
    (h : s ∈ jsFilterBoolean l) : s ≠ "" := by
  simp only [jsFilterBoolean, List.mem_filterMap] at h
  obtain ⟨o, -, ho⟩ := h
  rcases o with _ | t
  · exact absurd ho (by simp)
  · by_cases ht : t = ""
    · simp [ht] at ho
    · simp [ht] at ho
      exact ho ▸ ht

theorem jsOrStr_head_getD (l : List String) (b : String) (h : ∀ s ∈ l, s ≠ "") :
    jsOrStr l.head? b = l.head?.getD b := by
  cases l with
  | nil => rfl
  | cons s t =>
    have hs : s ≠ "" := h s (by simp)
    simp [jsOrStr, hs]

/-- C1: when `handleSearchDuplicates` reaches the duplicate lookup (asset
found, visible, without a duplicate id, with a preview) and no returned
duplicate id is the empty string, a non-empty result list produces exactly
one duplicate-group upsert whose group id is the first present duplicate id
(or the fresh random UUID when none is present) and whose asset-id list is
the returned asset ids with the id of the queried asset appended; an empty result
list produces no duplicate-group upsert. -/
theorem handleSearchDuplicates_single_upsert (env : DupSearchEnv) (asset : AssetEntity)
    (hget : env.getById = some asset)
    (hvis : asset.isVisible = true)
    (hnodup : strTruthy asset.duplicateId = false)
    (hresize : strTruthy asset.resizePath = true)
    (hclean : ∀ d ∈ env.searchDuplicates, d.duplicateId ≠ some "") :
    (env.searchDuplicates ≠ [] →
      (handleSearchDuplicates env).dupUpserts =
        [DupCall.upsertDuplicate
          (((env.searchDuplicates.filterMap AssetDuplicateResult.duplicateId).head?).getD
            env.randomUUID)
          (env.searchDuplicates.map AssetDuplicateResult.assetId ++ [asset.id])
          (env.searchDuplicates.filterMap AssetDuplicateResult.duplicateId)])
    ∧ (env.searchDuplicates = [] → (handleSearchDuplicates env).dupUpserts = []) := by
  have hfb := jsFilterBoolean_eq_filterMap env.searchDuplicates hclean
  have hne : ∀ s ∈ jsFilterBoolean (env.searchDuplicates.map (·.duplicateId)), s ≠ "" :=
    fun s hs => mem_jsFilterBoolean_ne _ s hs
  have hor := jsOrStr_head_getD (jsFilterBoolean (env.searchDuplicates.map (·.duplicateId)))
    env.randomUUID hne
  constructor
  · intro hlist
    have hlen : env.searchDuplicates.length > 0 := List.length_pos.mpr hlist
    simp only [handleSearchDuplicates, hget, hvis, hnodup, hresize, Bool.not_true,
      Bool.false_eq_true, if_false, if_true, hlen, if_pos]
    simp only [DupOutcome.dupUpserts, List.filter]
    rw [hor, hfb]
  · intro hlist
    simp [handleSearchDuplicates, hget, hvis, hnodup, hresize, hlist, DupOutcome.dupUpserts]

/-- C1 witness: applying the theorem to the concrete environment `dupEnvA`,
where the first duplicate has no group id and the second belongs to `g1`. -/
theorem handleSearchDuplicates_single_upsert_witness :
    (handleSearchDuplicates dupEnvA).dupUpserts =
      [DupCall.upsertDuplicate "g1" ["b1", "b2", "a1"] ["g1"]] := by
  have h := (handleSearchDuplicates_single_upsert dupEnvA assetA rfl rfl rfl rfl
    (by decide)).1 (by decide)
  simpa using h

/-- C3 counterexample: the claim "FAILED when the asset has no resizePath"
fails on an asset that is also invisible: the code returns SKIPPED there
because the visibility check runs first. -/
theorem handleSearchDuplicates_status_claim_false :
    ¬ (∀ (env : DupSearchEnv) (asset : AssetEntity),
        env.getById = some asset → strTruthy asset.resizePath = false →
        (handleSearchDuplicates env).status = .failed) := by
  intro h
  have hc := h ⟨some ⟨"a1", "o1", false, none, none⟩, [], "u1", 0⟩
    ⟨"a1", "o1", false, none, none⟩ rfl rfl
  exact absurd hc (by decide)

/-- C3 amended: the branches are checked in order, so the status is FAILED
exactly when the asset is missing, or is visible with no duplicate id and no
preview; SKIPPED exactly when the asset exists but is invisible, or is
visible with a duplicate id; SUCCESS exactly when it is visible with no
duplicate id and a preview. -/
theorem handleSearchDuplicates_status_characterization (env : DupSearchEnv) :
    ((handleSearchDuplicates env).status = .failed ↔
        env.getById = none ∨
          ∃ a, env.getById = some a ∧ a.isVisible = true ∧ strTruthy a.duplicateId = false ∧
            strTruthy a.resizePath = false)
    ∧ ((handleSearchDuplicates env).status = .skipped ↔
        ∃ a, env.getById = some a ∧ (a.isVisible = false ∨
          (a.isVisible = true ∧ strTruthy a.duplicateId = true)))
    ∧ ((handleSearchDuplicates env).status = .success ↔
        ∃ a, env.getById = some a ∧ a.isVisible = true ∧ strTruthy a.duplicateId = false ∧
          strTruthy a.resizePath = true) := by
  rcases hget : env.getById with _ | a
  · simp [handleSearchDuplicates, hget]
  · rcases hv : a.isVisible with _ | _
    · simp [handleSearchDuplicates, hget, hv]
    · rcases hd : strTruthy a.duplicateId with _ | _
      · rcases hr : strTruthy a.resizePath with _ | _
        · simp [handleSearchDuplicates, hget, hv, hd, hr]
        · by_cases hlen : env.searchDuplicates.length > 0 <;>
            simp [handleSearchDuplicates, hget, hv, hd, hr, hlen]
      · simp [handleSearchDuplicates, hget, hv, hd]

/-- C4: `handleQueueSearchDuplicates` returns SKIPPED exactly when machine
learning or the CLIP model is disabled, SUCCESS exactly otherwise, never
FAILED; and in the SUCCESS case it queues one DUPLICATE_DETECTION job per
paginated asset, in order. -/
theorem handleQueueSearchDuplicates_status (force : Bool) (env : QueueDupEnv) :
    ((handleQueueSearchDuplicates force env).status = .skipped ↔
        (env.machineLearningEnabled = false ∨ env.clipEnabled = false))
    ∧ ((handleQueueSearchDuplicates force env).status = .success ↔
        (env.machineLearningEnabled = true ∧ env.clipEnabled = true))
    ∧ (handleQueueSearchDuplicates force env).status ≠ .failed
    ∧ (env.machineLearningEnabled = true → env.clipEnabled = true →
        (handleQueueSearchDuplicates force env).queued =
          ((if force then env.allPages else env.withoutPages).flatten).map
            fun a => ⟨.duplicateDetection, a.id⟩) := by
  rcases hm : env.machineLearningEnabled with _ | _ <;>
    rcases hc : env.clipEnabled with _ | _ <;>
      simp [handleQueueSearchDuplicates, hm, hc, List.map_flatten]

/-- C4 witness: with machine learning and CLIP enabled and one forced page,
a single duplicate-detection job is queued. -/
theorem handleQueueSearchDuplicates_status_witness :
    (handleQueueSearchDuplicates true queueEnvA).queued =
      [⟨.duplicateDetection, "a1"⟩] := by
  have h := (handleQueueSearchDuplicates_status true queueEnvA).2.2.2 rfl rfl
  simpa using h

/-- C9: the searched user-id list starts with the own id of the caller, and its
remaining elements are exactly the `sharedById` of the partners with both
`sharedBy` and `inTimeline` truthy; nothing else is included. -/
theorem getUserIdsToSearch_spec (uid : String) (partners : List PartnerEntity) :
    (getUserIdsToSearch uid partners).head? = some uid
    ∧ (getUserIdsToSearch uid partners).tail =
        (partners.filter fun p => p.sharedBy && p.inTimeline).map PartnerEntity.sharedById
    ∧ ∀ x, x ∈ getUserIdsToSearch uid partners ↔
        x = uid ∨ ∃ p, p ∈ partners ∧ p.sharedBy = true ∧ p.inTimeline = true ∧
          p.sharedById = x := by
  refine ⟨rfl, rfl, fun x => ?_⟩
  simp only [getUserIdsToSearch, List.mem_cons, List.mem_map, List.mem_filter,
    Bool.and_eq_true]
  constructor
  · rintro (rfl | ⟨p, ⟨hp, hs, ht⟩, rfl⟩)
    · exact Or.inl rfl
    · exact Or.inr ⟨p, hp, hs, ht, rfl⟩
  · rintro (rfl | ⟨p, hp, hs, ht, rfl⟩)
    · exact Or.inl rfl
    · exact Or.inr ⟨p, ⟨hp, hs, ht⟩, rfl⟩

theorem strTruthy_jsOrOpt (a b : Option String) :
    strTruthy (jsOrOpt a b) = (strTruthy a || strTruthy b) := by
  by_cases h : strTruthy a = true <;> simp [jsOrOpt, h]

/-- C5: with the SEARCH feature enabled (so the flag check passes), the
deprecated `search` throws the missing-query error exactly when `dto.q` and
`dto.query` are both absent or empty. -/
theorem search_missing_query {α : Type} (mapAsset : AssetEntity → α) (env : SearchEnv)
    (uid : String) (dto : SearchDto) (hflag : env.searchEnabled = true) :
    (search mapAsset env uid dto).result = .error .missingQuery ↔
      strTruthy dto.q = false ∧ strTruthy dto.query = false := by
  by_cases hq : strTruthy (jsOrOpt dto.q dto.query) = true
  · have hor : (strTruthy dto.q || strTruthy dto.query) = true := by
      rw [← strTruthy_jsOrOpt]; exact hq
    have hrhs : ¬ (strTruthy dto.q = false ∧ strTruthy dto.query = false) := by
      rintro ⟨h1, h2⟩
      rw [h1, h2] at hor
      simp at hor
    by_cases hs : ((dto.smart || dto.clip) && !env.smartSearchEnabled) = true
    · simp [search, hflag, hq, hs, hrhs]
    · by_cases him : (dto.smart || dto.clip) = true
      · have henv : env.smartSearchEnabled = true := by
          rcases h : env.smartSearchEnabled with _ | _
          · exact absurd (by simp [him, h]) hs
          · rfl
        simp [search, hflag, hq, hs, him, henv, hrhs]
      · simp [search, hflag, hq, hs, him, hrhs]
  · have hor : (strTruthy dto.q || strTruthy dto.query) = false := by
      rw [← strTruthy_jsOrOpt]; simpa using hq
    simp only [Bool.or_eq_false_iff] at hor
    simp [search, hflag, hq, hor.1, hor.2]

/-- C5 witness: with the flag enabled and both query fields falsy, the
missing-query error is thrown. -/
theorem search_missing_query_witness :
    (search mapAssetId searchEnvOn "u" dtoNoQuery).result = .error .missingQuery ↔
      strTruthy dtoNoQuery.q = false ∧ strTruthy dtoNoQuery.query = false :=
  search_missing_query mapAssetId searchEnvOn "u" dtoNoQuery rfl

/-- C2: once the SEARCH flag check and the query check pass, the dispatch is
the two-branch conditional: a truthy `smart` or `clip` requires the
SMART_SEARCH feature and takes the smart-search repository path, otherwise
the strategy is TEXT and the metadata path on the asset repository is taken;
no run takes both paths. -/
theorem search_dispatch {α : Type} (mapAsset : AssetEntity → α) (env : SearchEnv)
    (uid : String) (dto : SearchDto)
    (hflag : env.searchEnabled = true)
    (hq : strTruthy (jsOrOpt dto.q dto.query) = true) :
    ((dto.smart || dto.clip) = true → env.smartSearchEnabled = false →
        (search mapAsset env uid dto).result = .error (.featureDisabled .smartSearch))
    ∧ ((dto.smart || dto.clip) = true → env.smartSearchEnabled = true →
        (search mapAsset env uid dto).strategy = some .smart
        ∧ (search mapAsset env uid dto).calls.any SvcCall.isSmartRepoCall = true
        ∧ (search mapAsset env uid dto).calls.any SvcCall.isTextRepoCall = false)
    ∧ ((dto.smart || dto.clip) = false →
        (search mapAsset env uid dto).strategy = some .text
        ∧ (search mapAsset env uid dto).calls.any SvcCall.isTextRepoCall = true
        ∧ (search mapAsset env uid dto).calls.any SvcCall.isSmartRepoCall = false) := by
  refine ⟨fun him hoff => ?_, fun him hon => ?_, fun him => ?_⟩
  · simp [search, hflag, hq, him, hoff]
  · simp [search, hflag, hq, him, hon, SvcCall.isSmartRepoCall, SvcCall.isTextRepoCall]
  · simp [search, hflag, hq, him, SvcCall.isSmartRepoCall, SvcCall.isTextRepoCall]

/-- C2 witness: the concrete smart dto takes the smart path and not the text
path. -/
theorem search_dispatch_witness :
    (search mapAssetId searchEnvOn "u" dtoSmart).strategy = some .smart
    ∧ (search mapAssetId searchEnvOn "u" dtoSmart).calls.any SvcCall.isSmartRepoCall = true
    ∧ (search mapAssetId searchEnvOn "u" dtoSmart).calls.any SvcCall.isTextRepoCall = false :=
  (search_dispatch mapAssetId searchEnvOn "u" dtoSmart rfl (by decide)).2.1 rfl rfl

/-- C6: the feature-flag checks run first: with SEARCH disabled the
deprecated `search` and `getExploreData` fail with the feature error having
made no repository or machine-learning call, and with SMART_SEARCH disabled
so does `searchSmart`. -/
theorem feature_flag_gating {α : Type} (mapAsset : AssetEntity → α) (env : SearchEnv)
    (uid : String) (dtoDep : SearchDto) (dtoSm : SmartSearchDto) :
    (env.searchEnabled = false →
        search mapAsset env uid dtoDep = ⟨.error (.featureDisabled .search), none, []⟩)
    ∧ (env.searchEnabled = false →
        getExploreData mapAsset env uid = ⟨.error (.featureDisabled .search), []⟩)
    ∧ (env.smartSearchEnabled = false →
        searchSmart mapAsset env uid dtoSm = ⟨.error (.featureDisabled .smartSearch), []⟩) := by
  refine ⟨fun h => ?_, fun h => ?_, fun h => ?_⟩ <;>
    simp [search, getExploreData, searchSmart, h]

/-- C6 witness: the disabled-flag environment makes all three operations fail
with no calls. -/
theorem feature_flag_gating_witness :
    search mapAssetId searchEnvOff "u" dtoText = ⟨.error (.featureDisabled .search), none, []⟩
    ∧ getExploreData mapAssetId searchEnvOff "u" = ⟨.error (.featureDisabled .search), []⟩
    ∧ searchSmart mapAssetId searchEnvOff "u" dtoClip
        = ⟨.error (.featureDisabled .smartSearch), []⟩ := by
  have h := feature_flag_gating mapAssetId searchEnvOff "u" dtoText dtoClip
  exact ⟨h.1 rfl, h.2.1 rfl, h.2.2 rfl⟩

/-- C10: whenever the deprecated `search` takes the TEXT strategy, the
`nextPage` of the response is null, whatever the metadata search returns. -/
theorem search_text_no_next_page {α : Type} (mapAsset : AssetEntity → α) (env : SearchEnv)
    (uid : String) (dto : SearchDto)
    (hflag : env.searchEnabled = true)
    (hq : strTruthy (jsOrOpt dto.q dto.query) = true)
    (hsmart : (dto.smart || dto.clip) = false) :
    ∀ resp, (search mapAsset env uid dto).result = .ok resp →
      resp.assets.nextPage = none := by
  intro resp h
  simp only [search, hflag, hq, hsmart] at h
  simp only [Bool.not_true, Bool.false_and, Bool.false_eq_true, if_false, if_true,
    Bool.not_false, ite_true, ite_false] at h
  rcases h with h
  simp only [Except.ok.injEq] at h
  rw [← h]
  rfl

/-- C10 witness: the concrete text search returns a response with a null
`nextPage`. -/
theorem search_text_no_next_page_witness :
    (⟨⟨0, 0, [], []⟩, ⟨1, 1, ["a1"], [], none⟩⟩ :
        SearchResponseDto String).assets.nextPage = none :=
  search_text_no_next_page mapAssetId searchEnvOn "u" dtoText rfl (by decide) rfl
    _ (by decide)

/-- C7: the page requested from the repository defaults to 1 when absent, the
size defaults to 250 (`searchMetadata`) or 100 (`searchSmart`) when absent or
zero, and the returned `nextPage` is the decimal string of `page + 1` when
the repository reports a next page and null otherwise. -/
theorem pagination_defaults {α : Type} (mapAsset : AssetEntity → α) (env : SearchEnv)
    (uid : String) (dtoM : MetadataSearchDto) (dtoS : SmartSearchDto) :
    (dtoM.page = none → (metadataRepoArgs uid env dtoM).page = 1)
    ∧ (∀ p, dtoM.page = some p → (metadataRepoArgs uid env dtoM).page = p)
    ∧ (dtoM.size = none ∨ dtoM.size = some 0 → (metadataRepoArgs uid env dtoM).size = 250)
    ∧ (∀ n, dtoM.size = some n → n ≠ 0 → (metadataRepoArgs uid env dtoM).size = n)
    ∧ (dtoS.page = none → (smartRepoArgs uid env dtoS).page = 1)
    ∧ (∀ p, dtoS.page = some p → (smartRepoArgs uid env dtoS).page = p)
    ∧ (dtoS.size = none ∨ dtoS.size = some 0 → (smartRepoArgs uid env dtoS).size = 100)
    ∧ (∀ n, dtoS.size = some n → n ≠ 0 → (smartRepoArgs uid env dtoS).size = n)
    ∧ (∀ resp, (searchMetadata mapAsset env uid dtoM).result = .ok resp →
        resp.assets.nextPage =
          (if (env.metadataRepo (metadataRepoArgs uid env dtoM)).hasNextPage then
            some (toString ((metadataRepoArgs uid env dtoM).page + 1)) else none))
    ∧ (∀ resp, (searchSmart mapAsset env uid dtoS).result = .ok resp →
        resp.assets.nextPage =
          (if (env.smartRepo (smartRepoArgs uid env dtoS)).hasNextPage then
            some (toString ((smartRepoArgs uid env dtoS).page + 1)) else none)) := by
  refine ⟨fun h => by simp [metadataRepoArgs, h],
    fun p h => by simp [metadataRepoArgs, h],
    fun h => by rcases h with h | h <;> simp [metadataRepoArgs, jsNumOr, h],
    fun n h hn => by simp [metadataRepoArgs, jsNumOr, h, hn],
    fun h => by simp [smartRepoArgs, h],
    fun p h => by simp [smartRepoArgs, h],
    fun h => by rcases h with h | h <;> simp [smartRepoArgs, jsNumOr, h],
    fun n h hn => by simp [smartRepoArgs, jsNumOr, h, hn],
    fun resp h => ?_, fun resp h => ?_⟩
  · simp only [searchMetadata, Except.ok.injEq] at h
    rw [← h]
    rfl
  · by_cases hflag : env.smartSearchEnabled = true
    · simp only [searchSmart, hflag, Bool.not_true, Bool.false_eq_true, if_false,
        Except.ok.injEq] at h
      rw [← h]
      rfl
    · have hflag2 : env.smartSearchEnabled = false := by
        rcases hh : env.smartSearchEnabled with _ | _
        · rfl
        · exact absurd hh hflag
      simp [searchSmart, hflag2] at h

/-- C7 witness: with every field absent, the metadata page is 1 and size 250,
the smart page is 1 and size 100, and the concrete repository answers give
the stated `nextPage` values. -/
theorem pagination_defaults_witness :
    (metadataRepoArgs "u" searchEnvOn dtoMeta).page = 1
    ∧ (metadataRepoArgs "u" searchEnvOn dtoMeta).size = 250
    ∧ (smartRepoArgs "u" searchEnvOn dtoClip).page = 1
    ∧ (smartRepoArgs "u" searchEnvOn dtoClip).size = 100
    ∧ (⟨⟨0, 0, [], []⟩, ⟨1, 1, ["a1"], [], none⟩⟩ :
          SearchResponseDto String).assets.nextPage =
        (if (searchEnvOn.metadataRepo (metadataRepoArgs "u" searchEnvOn dtoMeta)).hasNextPage
          then some (toString ((metadataRepoArgs "u" searchEnvOn dtoMeta).page + 1)) else none)
    ∧ (⟨⟨0, 0, [], []⟩, ⟨1, 1, ["a1"], [], some "2"⟩⟩ :
          SearchResponseDto String).assets.nextPage =
        (if (searchEnvOn.smartRepo (smartRepoArgs "u" searchEnvOn dtoClip)).hasNextPage
          then some (toString ((smartRepoArgs "u" searchEnvOn dtoClip).page + 1)) else none) := by
  have h := pagination_defaults mapAssetId searchEnvOn "u" dtoMeta dtoClip
  exact ⟨h.1 rfl, h.2.2.1 (Or.inl rfl), h.2.2.2.2.1 rfl, h.2.2.2.2.2.2.1 (Or.inl rfl),
    h.2.2.2.2.2.2.2.2.1 _ (by decide), h.2.2.2.2.2.2.2.2.2 _ (by decide)⟩

theorem wellFormedResponse_mapResponse {α : Type} (mapAsset : AssetEntity → α)
    (assets : List AssetEntity) (np : Option String) :
    wellFormedResponse (mapResponse mapAsset assets np) := by
  simp [wellFormedResponse, mapResponse]

/-- C8: every response the three search operations return has an empty albums
section, an assets section whose total and count equal the number of items,
and no facets. -/
theorem response_shape {α : Type} (mapAsset : AssetEntity → α) (env : SearchEnv)
    (uid : String) (dtoDep : SearchDto) (dtoM : MetadataSearchDto) (dtoS : SmartSearchDto) :
    (∀ resp, (search mapAsset env uid dtoDep).result = .ok resp → wellFormedResponse resp)
    ∧ (∀ resp, (searchMetadata mapAsset env uid dtoM).result = .ok resp →
        wellFormedResponse resp)
    ∧ (∀ resp, (searchSmart mapAsset env uid dtoS).result = .ok resp →
        wellFormedResponse resp) := by
  refine ⟨fun resp h => ?_, fun resp h => ?_, fun resp h => ?_⟩
  · by_cases h1 : env.searchEnabled = true
    · by_cases h2 : strTruthy (jsOrOpt dtoDep.q dtoDep.query) = true
      · by_cases h3 : ((dtoDep.smart || dtoDep.clip) && !env.smartSearchEnabled) = true
        · simp [search, h1, h2, h3] at h
        · by_cases h4 : (dtoDep.smart || dtoDep.clip) = true
          · have henv : env.smartSearchEnabled = true := by
              rcases hh : env.smartSearchEnabled with _ | _
              · exact absurd (by simp [h4, hh]) h3
              · rfl
            simp only [search, h1, h2, h3, h4, henv, Bool.not_true, Bool.false_eq_true,
              if_false, if_true, Bool.and_false, Except.ok.injEq] at h
            rw [← h]
            exact wellFormedResponse_mapResponse ..
          · simp only [search, h1, h2, h3, h4, Bool.not_true, Bool.false_and,
              Bool.false_eq_true, if_false, if_true, Except.ok.injEq] at h
            rw [← h]
            exact wellFormedResponse_mapResponse ..
      · have h2f : strTruthy (jsOrOpt dtoDep.q dtoDep.query) = false := by
          rcases hh : strTruthy (jsOrOpt dtoDep.q dtoDep.query) with _ | _
          · rfl
          · exact absurd hh h2
        simp [search, h1, h2f] at h
    · have h1f : env.searchEnabled = false := by
        rcases hh : env.searchEnabled with _ | _
        · rfl
        · exact absurd hh h1
      simp [search, h1f] at h
  · simp only [searchMetadata, Except.ok.injEq] at h
    rw [← h]
    exact wellFormedResponse_mapResponse ..
  · by_cases hflag : env.smartSearchEnabled = true
    · simp only [searchSmart, hflag, Bool.not_true, Bool.false_eq_true, if_false,
        Except.ok.injEq] at h
      rw [← h]
      exact wellFormedResponse_mapResponse ..
    · have hflag2 : env.smartSearchEnabled = false := by
        rcases hh : env.smartSearchEnabled with _ | _
        · rfl
        · exact absurd hh hflag
      simp [searchSmart, hflag2] at h

/-- C8 witness: the concrete text-search response is well formed. -/
theorem response_shape_witness :
    wellFormedResponse
      (⟨⟨0, 0, [], []⟩, ⟨1, 1, ["a1"], [], none⟩⟩ : SearchResponseDto String) :=
  (response_shape mapAssetId searchEnvOn "u" dtoText dtoMeta dtoClip).1 _ (by decide)

end Immich
